import Mathlib

/-!
Verification development for the git-automation repository
(src/git_auto_sync.py).  The Python source is shallowly embedded below:

* `Cmd` / `ProcResult` / `ExecOutcome` model one `subprocess.run` call and
  its possible results (normal completion with an exit code and captured
  output, or `subprocess.TimeoutExpired`).
* `run_git_commands` embeds `GitAutoSyncApp.run_git_commands` (the
  stage -> commit -> push sequence with `check=True` semantics).
* `debounce_accept` / `on_modified` embed `LpzFileHandler.on_modified`
  (the per-path 3-second debounce ledger `last_event_time`).
* `git_pull_worker` / `git_fetch_worker` embed the worker closures of
  `GitAutoSyncApp.git_pull` / `git_fetch` (result classification,
  30-second timeout reported distinctly).
* `AppState` / `Event` / `step` embed the dialog / single-flight logic of
  `GitAutoSyncApp.show_commit_dialog` and `CommitDialog`
  (`push_changes`, `cancel`, `show_result`, `close_dialog`), with the
  tkinter main loop modelled as a sequential stream of events; worker
  threads spawned by `push_changes` are tracked in `runningSyncs` and
  their completion callbacks arrive as `Event.syncDone`.
* `start_monitoring` embeds `GitAutoSyncApp.start_monitoring` with the
  filesystem abstracted as a predicate `fs : String -> Bool`
  (`os.path.exists`).

Exit codes are `Int`; event timestamps are `Int` seconds (`time.time()`).
-/

namespace GitAutoSync

/-- Captured result of a completed child process:
`subprocess.CompletedProcess(returncode, stdout, stderr)`. -/
structure ProcResult where
  returncode : Int
  stdout : String
  stderr : String
deriving DecidableEq

/-- A single external command invocation: argument list plus the optional
`timeout=` parameter passed to `subprocess.run` (`none` when the source
passes no timeout, as in the push-sequence commands). The working
directory (`cwd=repo_path`) is carried separately by the callers. -/
structure Cmd where
  args : List String
  timeoutSeconds : Option Nat
deriving DecidableEq

/-- `['git', 'add', '.']` from `run_git_commands` (no timeout). -/
def addCmd : Cmd := ⟨["git", "add", "."], none⟩

/-- `['git', 'commit', '-m', commit_message]` from `run_git_commands`. -/
def commitCmd (msg : String) : Cmd := ⟨["git", "commit", "-m", msg], none⟩

/-- `['git', 'push', remote, branch]` from `run_git_commands`. -/
def pushCmd (remote branch : String) : Cmd := ⟨["git", "push", remote, branch], none⟩

/-- `['git', 'pull']` with `timeout=30` from `git_pull`. -/
def pullCmd : Cmd := ⟨["git", "pull"], some 30⟩

/-- `['git', 'fetch']` with `timeout=30` from `git_fetch`. -/
def fetchCmd : Cmd := ⟨["git", "fetch"], some 30⟩

/-- How one `subprocess.run` call ends: normal completion carrying a
`ProcResult`, or `subprocess.TimeoutExpired`. -/
inductive ExecOutcome where
  | completed (r : ProcResult)
  | timedOut
deriving DecidableEq

/-! String helpers.  The Lean standard library's `String.trim`,
`String.splitOn` and `String.endsWith` do not reduce inside the kernel,
so the few Python string operations the source uses are given explicit
character-list implementations here. -/

/-- Suffix test on character lists via reversal: does `pat` match the
start of `l` element-wise? -/
def charsMatch : List Char → List Char → Bool
  | [], _ => true
  | _ :: _, [] => false
  | a :: as, b :: bs => a == b && charsMatch as bs

/-- Python `str.endswith(pat)`. -/
def strEndsWith (s pat : String) : Bool :=
  charsMatch pat.data.reverse s.data.reverse

/-- The whitespace characters stripped by Python's `str.strip()`
(ASCII portion, which is all the source's strings can contain). -/
def isStripChar (c : Char) : Bool :=
  c == ' ' || c == '\t' || c == '\n' || c == '\r' || c == '\x0b' || c == '\x0c'

/-- Python `str.strip()`. -/
def strTrim (s : String) : String :=
  ⟨((s.data.dropWhile isStripChar).reverse.dropWhile isStripChar).reverse⟩

/-- `GitAutoSyncApp.run_git_commands(repo_path, commit_message, remote,
branch)`.  Each step runs with `check=True`, so the first nonzero exit
raises `CalledProcessError`, the `except` clause returns `False`, and no
later command runs.  The environment is abstracted as `exec`, giving the
exit code of each command.  Returns the source's boolean result together
with the list of commands actually spawned, in order. -/
def run_git_commands (msg remote branch : String) (exec : Cmd → Int) :
    Bool × List Cmd :=
  if exec addCmd ≠ 0 then
    (false, [addCmd])
  else if exec (commitCmd msg) ≠ 0 then
    (false, [addCmd, commitCmd msg])
  else if exec (pushCmd remote branch) ≠ 0 then
    (false, [addCmd, commitCmd msg, pushCmd remote branch])
  else
    (true, [addCmd, commitCmd msg, pushCmd remote branch])

/-! ## Debouncer: `LpzFileHandler` -/

/-- Lookup in the `last_event_time` dict (modelled as an association
list): `self.last_event_time[path]` / `path in self.last_event_time`. -/
def lookupTime : List (String × Int) → String → Option Int
  | [], _ => none
  | (q, t) :: rest, p => if q = p then some t else lookupTime rest p

/-- Dict update `self.last_event_time[path] = now`. -/
def setTime : List (String × Int) → String → Int → List (String × Int)
  | [], p, t => [(p, t)]
  | (q, u) :: rest, p, t =>
    if q = p then (p, t) :: rest else (q, u) :: setTime rest p t

/-- The debounce core of `LpzFileHandler.on_modified` (lines 47-53): if
the path has a prior timestamp and `now - last < 3`, the event is dropped
and the ledger untouched; otherwise the ledger entry is set to `now` and
the signal propagates (the commit dialog is scheduled). -/
def debounce_accept (m : List (String × Int)) (p : String) (now : Int) :
    Bool × List (String × Int) :=
  match lookupTime m p with
  | some last => if now - last < 3 then (false, m) else (true, setTime m p now)
  | none => (true, setTime m p now)

/-- Full `LpzFileHandler.on_modified`: directory events and paths not
ending in `.lpz` are ignored without touching the ledger; `.lpz` file
events go through the debounce core.  Returns the new ledger and whether
`show_commit_dialog` gets scheduled. -/
def on_modified (m : List (String × Int)) (isDir : Bool) (path : String)
    (now : Int) : List (String × Int) × Bool :=
  if isDir then (m, false)
  else if strEndsWith path ".lpz" then
    let r := debounce_accept m path now
    (r.snd, r.fst)
  else (m, false)

/-- Number of events of the given time sequence (all on one path) that
the debouncer lets propagate, threading the ledger through. -/
def acceptCount (m : List (String × Int)) (p : String) : List Int → Nat
  | [] => 0
  | t :: ts =>
    let r := debounce_accept m p t
    (if r.fst then 1 else 0) + acceptCount r.snd p ts

/-! ## Pull / fetch workers (`git_pull` / `git_fetch` inner closures) -/

/-- Substring helper: does the needle occur anywhere in the haystack? -/
def charsFind (needle : List Char) : List Char → Bool
  | [] => charsMatch needle []
  | b :: bs => charsMatch needle (b :: bs) || charsFind needle bs

/-- Python's `needle in hay` on strings. -/
def strContains (hay needle : String) : Bool := charsFind needle.data hay.data

/-- The distinct reports `run_pull` can deliver through
`show_tray_message` (success variants keyed by stdout contents, a failure
carrying the stderr text, and the `TimeoutExpired` report). -/
inductive PullReport where
  | alreadyUpToDate
  | repoUpdated
  | completedOk
  | failed (err : String)
  | timedOut
deriving DecidableEq

/-- The worker closure `run_pull` inside `GitAutoSyncApp.git_pull`:
classifies the outcome of `subprocess.run(['git', 'pull'], ...,
timeout=30)`.  `TimeoutExpired` is caught by its own `except` clause and
reported as "Pull timed out (>30 seconds)", never through the
nonzero-exit branch. -/
def git_pull_worker : ExecOutcome → PullReport
  | .timedOut => .timedOut
  | .completed r =>
    if r.returncode = 0 then
      if strContains r.stdout "Already up to date"
          || strContains r.stdout "Already up-to-date" then
        .alreadyUpToDate
      else if strContains r.stdout "Fast-forward"
          || strContains r.stdout "files changed" then
        .repoUpdated
      else
        .completedOk
    else
      .failed (if r.stderr = "" then "Unknown error" else strTrim r.stderr)

/-- The distinct reports `run_fetch` can deliver. -/
inductive FetchReport where
  | newChanges
  | noNewChanges
  | failed (err : String)
  | timedOut
deriving DecidableEq

/-- The worker closure `run_fetch` inside `GitAutoSyncApp.git_fetch`,
analogous to `git_pull_worker`. -/
def git_fetch_worker : ExecOutcome → FetchReport
  | .timedOut => .timedOut
  | .completed r =>
    if r.returncode = 0 then
      if strTrim r.stdout ≠ "" then .newChanges else .noNewChanges
    else
      .failed (if r.stderr = "" then "Unknown error" else strTrim r.stderr)

/-! ## Coordinator state machine
(`GitAutoSyncApp.show_commit_dialog` + `CommitDialog` + the tray actions)

The tkinter main loop processes callbacks one at a time, so the
dialog/tray logic is embedded as a step function on an explicit state.
Operator clicks, debounced change events (delivered via `root.after` from
the watcher thread) and the `root.after(0, ...)` completion callbacks of
`run_git` worker threads are the events. -/

/-- The persisted configuration dict (`git_sync_config.json`): a key
maps to `none` when absent.  `Option.getD` models `dict.get(key,
default)`. -/
structure Config where
  watch_path : Option String
  repo_path : Option String
  default_remote : Option String
  default_branch : Option String
deriving DecidableEq

/-- Python truthiness of `self.config.get('repo_path')`: absent key or
empty string is falsy. -/
def truthy : Option String → Bool
  | none => false
  | some s => !(s == "")

/-- The mutable dialog state of `GitAutoSyncApp` plus the live tkinter
dialog windows and the `run_git` worker threads still running:

* `openDialogs`: ids of `CommitDialog` windows created and not yet
  destroyed (`winfo_exists` is membership here);
* `active_dialog`: the `self.active_dialog` reference (`none` after
  `close_dialog` clears it);
* `runningSyncs`: ids of dialogs whose `run_git` thread has been spawned
  by `push_changes` and whose `show_result` callback has not yet run;
* `nextId`: fresh id supply for newly created dialog windows. -/
structure AppState where
  openDialogs : List Nat
  active_dialog : Option Nat
  runningSyncs : List Nat
  nextId : Nat
  config : Config
deriving DecidableEq

/-- The busy test at the top of `show_commit_dialog`:
`self.active_dialog` is set and `winfo_exists()` holds (a cleared or
stale reference counts as not busy). -/
def dialogOpen (s : AppState) : Bool :=
  match s.active_dialog with
  | some id => s.openDialogs.contains id
  | none => false

/-- Accumulator pass for `basename`: restart at each separator. -/
def basenameChars (acc : List Char) : List Char → List Char
  | [] => acc.reverse
  | c :: cs => if c == '/' then basenameChars [] cs else basenameChars (c :: acc) cs

/-- `os.path.basename` (POSIX separator): everything after the final
separator. -/
def basename (p : String) : String := ⟨basenameChars [] p.data⟩

/-- The pre-filled dialog text from `CommitDialog.setup_simple_dialog`:
`f"Update {os.path.basename(self.file_path)} - {datetime.now().strftime('%Y-%m-%d %H:%M')}"`,
with the formatted local timestamp abstracted as the string `ts`. -/
def default_commit (file_path ts : String) : String :=
  "Update " ++ basename file_path ++ " - " ++ ts

/-- Inputs to the main loop. `change` is a debounced change signal
scheduled by `LpzFileHandler.on_modified` (carrying the formatted local
time used for the default message); `approve`/`cancel` are operator
clicks on the open commit dialog; `syncDone` is the
`root.after(0, show_result)` callback of dialog `id`'s worker thread;
the `manual*` events are tray menu clicks. -/
inductive Event where
  | change (path ts : String)
  | approve (msg : String)
  | cancel
  | syncDone (id : Nat) (success : Bool)
  | manualForcePush
  | manualPull
  | manualFetch
deriving DecidableEq

/-- Observable effects of one event: dialog creation (with the
pre-filled default message), the "dialog already open, ignoring" log
line, the empty-message `messagebox.showerror`, spawning a `run_git`
worker (with the validated message and the remote/branch read from the
config), the `show_result` message box, spawning a tray worker, and the
tray "No repository configured" error.  The source has no constructor
for a busy/concurrency rejection of manual actions. -/
inductive Output where
  | prompt (id : Nat) (path defaultMsg : String)
  | ignoredChange (path : String)
  | validationError (text : String)
  | startedSync (id : Nat) (msg remote branch : String)
  | reportedResult (success : Bool)
  | startedManualPush (msg remote branch : String)
  | startedManualCmd (c : Cmd)
  | trayError (text : String)
deriving DecidableEq

/-- `GitAutoSyncApp.show_commit_dialog(file_path)`: if an active dialog
window still exists the event is only logged and dropped; otherwise a
new `CommitDialog` is created (pre-filled with the default message) and
becomes the active dialog. -/
def show_commit_dialog (s : AppState) (path ts : String) :
    AppState × List Output :=
  if dialogOpen s then
    (s, [Output.ignoredChange path])
  else
    ({ s with openDialogs := s.nextId :: s.openDialogs,
              active_dialog := some s.nextId,
              nextId := s.nextId + 1 },
     [Output.prompt s.nextId path (default_commit path ts)])

/-- `CommitDialog.push_changes` on the open dialog: strips the text; an
empty result shows "Please enter a commit message" and returns with the
dialog untouched; otherwise remote/branch come from
`config.get('default_remote', 'origin')` / `('default_branch', 'main')`
and a `run_git` worker thread is spawned for this dialog.  (Only the
text widget is disabled while the worker runs; the buttons stay live, so
the event is not guarded on `runningSyncs`.) -/
def push_changes (s : AppState) (raw : String) : AppState × List Output :=
  match s.active_dialog with
  | none => (s, [])
  | some id =>
    if s.openDialogs.contains id then
      if strTrim raw = "" then
        (s, [Output.validationError "Please enter a commit message"])
      else
        ({ s with runningSyncs := id :: s.runningSyncs },
         [Output.startedSync id (strTrim raw)
            (s.config.default_remote.getD "origin")
            (s.config.default_branch.getD "main")])
    else (s, [])

/-- `CommitDialog.close_dialog`: clear `self.app.active_dialog` when it
still points at this dialog, then destroy the window. -/
def close_dialog (s : AppState) (id : Nat) : AppState :=
  if s.active_dialog = some id then
    { s with active_dialog := none, openDialogs := s.openDialogs.erase id }
  else
    { s with openDialogs := s.openDialogs.erase id }

/-- `CommitDialog.cancel` (button, Escape, window close): only reachable
while the dialog window exists; calls `close_dialog`. -/
def cancel_dialog (s : AppState) : AppState × List Output :=
  match s.active_dialog with
  | some id =>
    if s.openDialogs.contains id then (close_dialog s id, []) else (s, [])
  | none => (s, [])

/-- The `show_result` callback for dialog `id`: the worker thread is
done; if the dialog window was already destroyed (operator cancelled
meanwhile), `self.dialog.withdraw()` raises `TclError` inside the
`after` callback and nothing further happens; otherwise the result
message box is shown and the dialog closed. -/
def show_result_step (s : AppState) (id : Nat) (success : Bool) :
    AppState × List Output :=
  if s.runningSyncs.contains id then
    let s₁ := { s with runningSyncs := s.runningSyncs.erase id }
    if s₁.openDialogs.contains id then
      (close_dialog s₁ id, [Output.reportedResult success])
    else
      (s₁, [])
  else (s, [])

/-- `GitAutoSyncApp.force_push` (tray "Force Push Now"): only gate is a
configured repo path; spawns a `run_push` thread that calls
`run_git_commands(repo_path, "Manual push from tray", remote, branch)`.
No state field is read or written; no busy check exists. -/
def force_push_step (s : AppState) : AppState × List Output :=
  if truthy s.config.repo_path then
    (s, [Output.startedManualPush "Manual push from tray"
          (s.config.default_remote.getD "origin")
          (s.config.default_branch.getD "main")])
  else
    (s, [Output.trayError "No repository configured"])

/-- `GitAutoSyncApp.git_pull` (tray): only gate is a configured repo
path; spawns a thread running `['git', 'pull']` with `timeout=30`. -/
def git_pull_step (s : AppState) : AppState × List Output :=
  if truthy s.config.repo_path then
    (s, [Output.startedManualCmd pullCmd])
  else
    (s, [Output.trayError "No repository configured"])

/-- `GitAutoSyncApp.git_fetch` (tray): same shape as `git_pull`. -/
def git_fetch_step (s : AppState) : AppState × List Output :=
  if truthy s.config.repo_path then
    (s, [Output.startedManualCmd fetchCmd])
  else
    (s, [Output.trayError "No repository configured"])

/-- One main-loop callback. -/
def step (s : AppState) : Event → AppState × List Output
  | .change p ts => show_commit_dialog s p ts
  | .approve m => push_changes s m
  | .cancel => cancel_dialog s
  | .syncDone id ok => show_result_step s id ok
  | .manualForcePush => force_push_step s
  | .manualPull => git_pull_step s
  | .manualFetch => git_fetch_step s

/-- Run a sequence of main-loop callbacks, collecting all outputs. -/
def runTrace (s : AppState) : List Event → AppState × List Output
  | [] => (s, [])
  | e :: es =>
    let r := step s e
    let rs := runTrace r.fst es
    (rs.fst, r.snd ++ rs.snd)

/-- `GitAutoSyncApp.__init__`: no dialog, no reference, no worker. -/
def initState (cfg : Config) : AppState := ⟨[], none, [], 0, cfg⟩

/-- The structural single-flight invariant of the dialog slot: at most
one commit-dialog window exists, and any existing window is the one
`active_dialog` points at. -/
def Inv (s : AppState) : Prop :=
  s.openDialogs.length ≤ 1 ∧ ∀ id ∈ s.openDialogs, s.active_dialog = some id

instance (s : AppState) : Decidable (Inv s) := by
  unfold Inv; infer_instance

/-- Number of pending actions in the sense of the specification's
`PendingAction`: open confirmation dialogs that have no running sync
(state AwaitingConfirmation) plus running sync workers (state
Executing). -/
def pendingActions (s : AppState) : Nat :=
  (s.openDialogs.filter (fun id => !(s.runningSyncs.contains id))).length
    + s.runningSyncs.length

/-! ## `start_monitoring` -/

/-- The fields of `GitAutoSyncApp` touched by `start_monitoring`. -/
structure MonitorState where
  config : Config
  monitoring : Bool
  observerRunning : Bool
deriving DecidableEq

/-- `GitAutoSyncApp.start_monitoring`: the four validations (both paths
given after stripping, both exist, repo contains `.git`), each showing a
`messagebox.showerror` and returning before any state is touched; on
success the config is updated and saved and the watchdog observer is
started.  `fs` abstracts `os.path.exists`; `os.path.join(repo, '.git')`
is modelled with the POSIX separator.  Returns the new state and the
error text, if any. -/
def start_monitoring (st : MonitorState) (fs : String → Bool)
    (watchVar repoVar remoteVar branchVar : String) :
    MonitorState × Option String :=
  if strTrim watchVar = "" ∨ strTrim repoVar = "" then
    (st, some "Please specify both watch path and repository path")
  else if !fs (strTrim watchVar) then
    (st, some ("Watch path does not exist: " ++ strTrim watchVar))
  else if !fs (strTrim repoVar) then
    (st, some ("Repository path does not exist: " ++ strTrim repoVar))
  else if !fs (strTrim repoVar ++ "/.git") then
    (st, some ("Not a Git repository: " ++ strTrim repoVar))
  else
    let cfg := { st.config with
      watch_path := some (strTrim watchVar), repo_path := some (strTrim repoVar),
      default_remote := some remoteVar, default_branch := some branchVar }
    ({ config := cfg, monitoring := true, observerRunning := true }, none)

/-! ## Worker bodies shared by the auto-sync and tray push paths -/

/-- The body of the `run_git` thread spawned by
`CommitDialog.push_changes`: `self.app.run_git_commands(
self.app.config['repo_path'], commit_msg, remote, branch)`.  The repo
path argument is the configured one (the dialog only ever appears after
`start_monitoring` stored it). -/
def run_git_worker (cfg : Config) (msg : String) (exec : Cmd → Int) :
    Bool × List Cmd :=
  run_git_commands msg (cfg.default_remote.getD "origin")
    (cfg.default_branch.getD "main") exec

/-- The body of the `run_push` thread spawned by
`GitAutoSyncApp.force_push`: `self.run_git_commands(
self.config['repo_path'], "Manual push from tray", remote, branch)`. -/
def run_push_worker (cfg : Config) (exec : Cmd → Int) : Bool × List Cmd :=
  run_git_commands "Manual push from tray" (cfg.default_remote.getD "origin")
    (cfg.default_branch.getD "main") exec

/-! ## Helper lemmas -/

theorem lookupTime_setTime_self (m : List (String × Int)) (p : String) (t : Int) :
    lookupTime (setTime m p t) p = some t := by
  induction m with
  | nil => simp [setTime, lookupTime]
  | cons head rest ih =>
    obtain ⟨q, u⟩ := head
    by_cases h : q = p
    · simp [setTime, h, lookupTime]
    · simp [setTime, h, lookupTime, ih]

theorem acceptCount_eq_zero (p : String) (t₁ : Int) (ts : List Int)
    (m : List (String × Int)) (hm : lookupTime m p = some t₁)
    (hts : ∀ t ∈ ts, t - t₁ < 3) : acceptCount m p ts = 0 := by
  induction ts generalizing m with
  | nil => rfl
  | cons t ts ih =>
    have hlt : t - t₁ < 3 := hts t (by simp)
    have h0 : acceptCount m p ts = 0 :=
      ih m hm (fun t' ht' => hts t' (List.mem_cons_of_mem _ ht'))
    simp [acceptCount, debounce_accept, hm, if_pos hlt, h0]

/-- C4: the debouncer lets an event on `path` through exactly when the
ledger has no entry for `path` or `now` is at least 3 seconds past the
last accepted timestamp; on acceptance the ledger entry becomes `now`,
on rejection the ledger is untouched (no retry, no queue); consequently
any sequence of events on one fresh path that all fall within a window
shorter than the 3-second cooldown produces at most one accepted
signal. -/
theorem debounce_contract (m : List (String × Int)) (p : String) (now : Int) :
    ((debounce_accept m p now).fst = true ↔
      lookupTime m p = none ∨
        ∃ last, lookupTime m p = some last ∧ 3 ≤ now - last) ∧
    ((debounce_accept m p now).fst = true →
      lookupTime (debounce_accept m p now).snd p = some now) ∧
    ((debounce_accept m p now).fst = false →
      (debounce_accept m p now).snd = m) ∧
    (∀ lo ts, lookupTime m p = none → (∀ t ∈ ts, lo ≤ t ∧ t < lo + 3) →
      acceptCount m p ts ≤ 1) := by
  refine ⟨?_, ?_, ?_, ?_⟩
  · cases h : lookupTime m p with
    | none => simp [debounce_accept, h]
    | some last =>
      by_cases hlt : now - last < 3
      · simp only [debounce_accept, h, if_pos hlt]
        constructor
        · intro hc; cases hc
        · rintro (hnone | ⟨l, hl, hge⟩)
          · simp at hnone
          · injection hl with hl; exfalso; omega
      · simp only [debounce_accept, h, if_neg hlt]
        refine ⟨fun _ => Or.inr ⟨last, rfl, by omega⟩, fun _ => by trivial⟩
  · cases h : lookupTime m p with
    | none =>
      intro _
      simp only [debounce_accept, h]
      exact lookupTime_setTime_self m p now
    | some last =>
      by_cases hlt : now - last < 3
      · simp [debounce_accept, h, if_pos hlt]
      · intro _
        simp only [debounce_accept, h, if_neg hlt]
        exact lookupTime_setTime_self m p now
  · cases h : lookupTime m p with
    | none => simp [debounce_accept, h]
    | some last =>
      by_cases hlt : now - last < 3
      · simp [debounce_accept, h, if_pos hlt]
      · simp [debounce_accept, h, if_neg hlt]
  · intro lo ts hm hwin
    cases ts with
    | nil => simp [acceptCount]
    | cons t ts =>
      simp only [acceptCount, debounce_accept, hm, if_true]
      have hcount : acceptCount (setTime m p t) p ts = 0 := by
        refine acceptCount_eq_zero p t ts _ (lookupTime_setTime_self m p t) ?_
        intro t' ht'
        have h1 := hwin t (List.mem_cons_self t ts)
        have h2 := hwin t' (List.mem_cons_of_mem _ ht')
        omega
      simp [hcount]

/-- C3: the push sequence runs stage-all, commit, push in that fixed
order, each gated on the prior step's success (`check=True` aborts at
the first nonzero exit, a commit failure exactly like any other), the
overall result is success only when all three succeed, the commands
spawned are always an initial segment of the fixed three-command
sequence (so nothing is attempted past the first failure and no
rollback command exists), and in particular stage success + commit
success + push failure yields failure with exactly the three commands
attempted. -/
theorem push_sequence_order (msg remote branch : String) (exec : Cmd → Int) :
    ((run_git_commands msg remote branch exec).fst = true ↔
      exec addCmd = 0 ∧ exec (commitCmd msg) = 0 ∧
        exec (pushCmd remote branch) = 0) ∧
    (exec addCmd ≠ 0 →
      run_git_commands msg remote branch exec = (false, [addCmd])) ∧
    (exec addCmd = 0 → exec (commitCmd msg) ≠ 0 →
      run_git_commands msg remote branch exec
        = (false, [addCmd, commitCmd msg])) ∧
    (exec addCmd = 0 → exec (commitCmd msg) = 0 →
        exec (pushCmd remote branch) ≠ 0 →
      run_git_commands msg remote branch exec
        = (false, [addCmd, commitCmd msg, pushCmd remote branch])) ∧
    (∃ rest, (run_git_commands msg remote branch exec).snd ++ rest
        = [addCmd, commitCmd msg, pushCmd remote branch]) := by
  by_cases h1 : exec addCmd = 0
  · by_cases h2 : exec (commitCmd msg) = 0
    · by_cases h3 : exec (pushCmd remote branch) = 0
      · refine ⟨?_, ?_, ?_, ?_, ⟨[], ?_⟩⟩ <;>
          simp [run_git_commands, h1, h2, h3]
      · refine ⟨?_, ?_, ?_, ?_, ⟨[], ?_⟩⟩ <;>
          simp [run_git_commands, h1, h2, h3]
    · refine ⟨?_, ?_, ?_, ?_, ⟨[pushCmd remote branch], ?_⟩⟩ <;>
        simp [run_git_commands, h1, h2]
  · refine ⟨?_, ?_, ?_, ?_, ⟨[commitCmd msg, pushCmd remote branch], ?_⟩⟩ <;>
      simp [run_git_commands, h1]

/-- Witness for C3: with an environment where stage and commit succeed
and push exits 1, the sequence reports failure after attempting exactly
the three commands in order. -/
theorem push_sequence_order_witness :
    run_git_commands "m" "origin" "main"
        (fun c => if c.args = ["git", "push", "origin", "main"] then 1 else 0)
      = (false, [addCmd, commitCmd "m", pushCmd "origin" "main"]) :=
  (push_sequence_order "m" "origin" "main"
      (fun c => if c.args = ["git", "push", "origin", "main"] then 1 else 0)).2.2.2.1
    (by decide) (by decide) (by decide)

/-- Witness for C4: a fresh path is accepted, and a three-event burst
inside one sub-cooldown window propagates exactly one signal. -/
theorem debounce_contract_witness :
    lookupTime ([] : List (String × Int)) "a.lpz" = none ∧
    acceptCount [] "a.lpz" [10, 11, 12] ≤ 1 :=
  ⟨rfl, (debounce_contract [] "a.lpz" 0).2.2.2 10 [10, 11, 12] rfl (by decide)⟩

/-- C5: manual pull and fetch each spawn a single command carrying the
30-second timeout; a `TimeoutExpired` outcome is reported as the
dedicated timeout report, which no completed-command outcome (in
particular no nonzero-exit `CommandFailure`) ever produces; and the
pull/fetch tray steps leave the coordinator state exactly as it was, so
an Idle coordinator stays Idle. -/
theorem pull_fetch_timeout_distinct :
    pullCmd.timeoutSeconds = some 30 ∧ fetchCmd.timeoutSeconds = some 30 ∧
    git_pull_worker ExecOutcome.timedOut = PullReport.timedOut ∧
    git_fetch_worker ExecOutcome.timedOut = FetchReport.timedOut ∧
    (∀ r : ProcResult,
      git_pull_worker (ExecOutcome.completed r) ≠ PullReport.timedOut) ∧
    (∀ r : ProcResult,
      git_fetch_worker (ExecOutcome.completed r) ≠ FetchReport.timedOut) ∧
    (∀ r : ProcResult, r.returncode ≠ 0 →
      git_pull_worker (ExecOutcome.completed r) = PullReport.failed
        (if r.stderr = "" then "Unknown error" else strTrim r.stderr)) ∧
    (∀ r : ProcResult, r.returncode ≠ 0 →
      git_fetch_worker (ExecOutcome.completed r) = FetchReport.failed
        (if r.stderr = "" then "Unknown error" else strTrim r.stderr)) ∧
    (∀ e : String, PullReport.failed e ≠ PullReport.timedOut) ∧
    (∀ e : String, FetchReport.failed e ≠ FetchReport.timedOut) ∧
    (∀ s : AppState, (truthy s.config.repo_path = true →
        (step s Event.manualPull).snd = [Output.startedManualCmd pullCmd] ∧
        (step s Event.manualFetch).snd = [Output.startedManualCmd fetchCmd]) ∧
      (step s Event.manualPull).fst = s ∧ (step s Event.manualFetch).fst = s) := by
  refine ⟨rfl, rfl, rfl, rfl, ?_, ?_, ?_, ?_, ?_, ?_, ?_⟩
  · intro r
    simp only [git_pull_worker]
    split_ifs <;> simp
  · intro r
    simp only [git_fetch_worker]
    split_ifs <;> simp
  · intro r hr
    simp [git_pull_worker, hr]
  · intro r hr
    simp [git_fetch_worker, hr]
  · intro e; simp
  · intro e; simp
  · intro s
    refine ⟨fun ht => ?_, ?_, ?_⟩
    · constructor <;> simp [step, git_pull_step, git_fetch_step, ht]
    · simp only [step, git_pull_step]; split <;> rfl
    · simp only [step, git_fetch_step]; split <;> rfl

/-- Witness for C5: a pull that exits 128 is reported as a command
failure carrying its stderr, not as a timeout. -/
theorem pull_fetch_timeout_distinct_witness :
    git_pull_worker (ExecOutcome.completed ⟨128, "", "fatal: not a git repository"⟩)
      = PullReport.failed "fatal: not a git repository" := by
  have h := pull_fetch_timeout_distinct.2.2.2.2.2.2.1
    ⟨128, "", "fatal: not a git repository"⟩ (by decide)
  simpa using h

/-! ## Coordinator invariant lemmas -/

theorem eq_singleton_of_mem_of_length_le (l : List Nat) (a : Nat)
    (h : a ∈ l) (hl : l.length ≤ 1) : l = [a] := by
  cases l with
  | nil => cases h
  | cons x t =>
    cases t with
    | nil => simp_all
    | cons y t' => simp at hl

theorem open_eq_nil_of_not_dialogOpen (s : AppState) (hInv : Inv s)
    (hd : dialogOpen s = false) : s.openDialogs = [] := by
  obtain ⟨hlen, htrack⟩ := hInv
  cases ho : s.openDialogs with
  | nil => rfl
  | cons x t =>
    have hx : s.active_dialog = some x :=
      htrack x (by rw [ho]; exact List.mem_cons_self x t)
    rw [show dialogOpen s = s.openDialogs.contains x by simp [dialogOpen, hx],
      ho] at hd
    simp at hd

theorem inv_step (s : AppState) (hInv : Inv s) (e : Event) :
    Inv (step s e).fst := by
  obtain ⟨hlen, htrack⟩ := hInv
  cases e with
  | change p ts =>
    by_cases hd : dialogOpen s = true
    · simp only [step, show_commit_dialog, hd, if_true]
      exact ⟨hlen, htrack⟩
    · have hd' : dialogOpen s = false := by simpa using hd
      have ho : s.openDialogs = [] :=
        open_eq_nil_of_not_dialogOpen s ⟨hlen, htrack⟩ hd'
      refine ⟨?_, ?_⟩ <;> simp [step, show_commit_dialog, hd', ho]
  | approve raw =>
    cases hact : s.active_dialog with
    | none =>
      simp only [step, push_changes, hact]
      exact ⟨hlen, htrack⟩
    | some id =>
      simp only [step, push_changes, hact]
      split
      · split
        · exact ⟨hlen, htrack⟩
        · exact ⟨hlen, fun x hx => by rw [← hact]; exact htrack x hx⟩
      · exact ⟨hlen, htrack⟩
  | cancel =>
    cases hact : s.active_dialog with
    | none =>
      simp only [step, cancel_dialog, hact]
      exact ⟨hlen, htrack⟩
    | some id =>
      simp only [step, cancel_dialog, hact]
      split
      · rename_i hc
        have hmem : id ∈ s.openDialogs := by simpa using hc
        have hsing : s.openDialogs = [id] :=
          eq_singleton_of_mem_of_length_le _ _ hmem hlen
        simp [close_dialog, hact, hsing, Inv]
      · exact ⟨hlen, htrack⟩
  | syncDone id ok =>
    simp only [step, show_result_step]
    split
    · split
      · rename_i hr ho2
        have hmem : id ∈ s.openDialogs := by simpa using ho2
        have hact : s.active_dialog = some id := htrack id hmem
        have hsing : s.openDialogs = [id] :=
          eq_singleton_of_mem_of_length_le _ _ hmem hlen
        simp [close_dialog, hact, hsing, Inv]
      · exact ⟨hlen, htrack⟩
    · exact ⟨hlen, htrack⟩
  | manualForcePush =>
    simp only [step, force_push_step]
    split
    · exact ⟨hlen, htrack⟩
    · exact ⟨hlen, htrack⟩
  | manualPull =>
    simp only [step, git_pull_step]
    split
    · exact ⟨hlen, htrack⟩
    · exact ⟨hlen, htrack⟩
  | manualFetch =>
    simp only [step, git_fetch_step]
    split
    · exact ⟨hlen, htrack⟩
    · exact ⟨hlen, htrack⟩

/-- A concrete configuration with watch and repository paths set, as
`start_monitoring` leaves it (no explicit remote/branch keys). -/
def cfgW : Config := ⟨some "/w", some "/repo", none, none⟩

/-- C1 (amended): the dialog slot is single-flight: in any state
satisfying the slot invariant at most one commit-dialog window is open,
every event preserves the invariant, and a debounced change event
arriving while a dialog is open leaves the state exactly unchanged and
emits only the ignored-event log line - it is never queued, so the
remainder of any trace behaves exactly as if the dropped event had
never arrived (no backlog flush, no later prompt for it).  The claim's
stronger reading - counting an executing sync worker as the same
single-flight slot - fails: cancelling during execution frees the
dialog slot while the worker still runs (see the counterexample). -/
theorem single_flight_dialog (s : AppState) (hInv : Inv s) :
    s.openDialogs.length ≤ 1 ∧
    (∀ e, Inv (step s e).fst) ∧
    (∀ p ts, dialogOpen s = true →
      step s (Event.change p ts) = (s, [Output.ignoredChange p])) ∧
    (∀ p ts es, dialogOpen s = true →
      runTrace s (Event.change p ts :: es)
        = ((runTrace s es).fst, Output.ignoredChange p :: (runTrace s es).snd)) := by
  refine ⟨hInv.1, inv_step s hInv, ?_, ?_⟩
  · intro p ts hd
    simp [step, show_commit_dialog, hd]
  · intro p ts es hd
    have hstep : step s (Event.change p ts) = (s, [Output.ignoredChange p]) := by
      simp [step, show_commit_dialog, hd]
    simp [runTrace, hstep]

/-- Counterexample to C1 as stated: run change -> approve -> cancel ->
change from the initial state.  The mid-execution cancel released the
dialog slot while dialog 0's sync worker still runs, so the final state
has a new open confirmation dialog (id 1, AwaitingConfirmation) and the
old executing sync (id 0) simultaneously: two PendingActions at one
instant. -/
theorem single_flight_cex :
    (runTrace (initState cfgW)
        [Event.change "d/a.lpz" "t", Event.approve "update", Event.cancel,
         Event.change "d/b.lpz" "u"]).fst
      = ⟨[1], some 1, [0], 2, cfgW⟩ ∧
    pendingActions ⟨[1], some 1, [0], 2, cfgW⟩ = 2 := by decide

/-- Witness for C1 (amended): with dialog 0 open, a further change
event is dropped with only the log line, the state unchanged. -/
theorem single_flight_dialog_witness :
    step ⟨[0], some 0, [], 1, cfgW⟩ (Event.change "c.lpz" "t")
      = (⟨[0], some 0, [], 1, cfgW⟩, [Output.ignoredChange "c.lpz"]) :=
  (single_flight_dialog ⟨[0], some 0, [], 1, cfgW⟩ (by decide)).2.2.1 "c.lpz" "t"
    (by decide)

/-- C2 (amended): manual tray actions are not serialized against the
coordinator: their only gate is a configured (truthy) repository path.
With one configured, force-push, pull and fetch always spawn their git
worker - even while a confirmation dialog is open or a sync is
executing - and the coordinator state, including any open confirmation,
is left exactly unchanged; no busy/concurrency rejection exists in the
source.  With no repository configured the action is rejected with the
tray error and no command is spawned. -/
theorem manual_actions_not_gated (s : AppState) :
    (truthy s.config.repo_path = true →
      step s Event.manualPull = (s, [Output.startedManualCmd pullCmd]) ∧
      step s Event.manualFetch = (s, [Output.startedManualCmd fetchCmd]) ∧
      step s Event.manualForcePush
        = (s, [Output.startedManualPush "Manual push from tray"
            (s.config.default_remote.getD "origin")
            (s.config.default_branch.getD "main")])) ∧
    (truthy s.config.repo_path = false →
      step s Event.manualPull
        = (s, [Output.trayError "No repository configured"]) ∧
      step s Event.manualFetch
        = (s, [Output.trayError "No repository configured"]) ∧
      step s Event.manualForcePush
        = (s, [Output.trayError "No repository configured"])) := by
  constructor
  · intro ht
    refine ⟨?_, ?_, ?_⟩ <;>
      simp [step, git_pull_step, git_fetch_step, force_push_step, ht]
  · intro hf
    refine ⟨?_, ?_, ?_⟩ <;>
      simp [step, git_pull_step, git_fetch_step, force_push_step, hf]

/-- Counterexample to C2 as stated: reach the state where the auto-sync
confirmation dialog is open; a manual pull there is not rejected as
busy - the git pull worker is spawned anyway, no rejection is reported,
and the open confirmation is untouched. -/
theorem manual_pull_during_dialog_cex :
    (runTrace (initState cfgW) [Event.change "d/a.lpz" "t"]).fst
      = ⟨[0], some 0, [], 1, cfgW⟩ ∧
    dialogOpen ⟨[0], some 0, [], 1, cfgW⟩ = true ∧
    step ⟨[0], some 0, [], 1, cfgW⟩ Event.manualPull
      = (⟨[0], some 0, [], 1, cfgW⟩, [Output.startedManualCmd pullCmd]) := by
  decide

/-- Witness for C2 (amended): with the repository configured, a manual
pull from the idle initial state spawns the pull worker. -/
theorem manual_actions_not_gated_witness :
    truthy cfgW.repo_path = true ∧
    step (initState cfgW) Event.manualPull
      = (initState cfgW, [Output.startedManualCmd pullCmd]) :=
  ⟨by decide, ((manual_actions_not_gated (initState cfgW)).1 (by decide)).1⟩

/-- C6: approving the open dialog with a message that strips to empty is
a validation failure: the error box is shown, no sync worker is spawned
and no git command runs, the state is exactly unchanged (the dialog
stays open, still AwaitingConfirmation), and the same dialog can
afterwards still be approved with any nonempty message or cancelled. -/
theorem empty_message_validation (s : AppState) (raw : String)
    (hopen : dialogOpen s = true) (hempty : strTrim raw = "") :
    step s (Event.approve raw)
      = (s, [Output.validationError "Please enter a commit message"]) ∧
    dialogOpen (step s (Event.approve raw)).fst = true ∧
    (step s (Event.approve raw)).fst.runningSyncs = s.runningSyncs ∧
    (∀ m, strTrim m ≠ "" → ∃ id, s.active_dialog = some id ∧
      step s (Event.approve m)
        = ({ s with runningSyncs := id :: s.runningSyncs },
           [Output.startedSync id (strTrim m)
             (s.config.default_remote.getD "origin")
             (s.config.default_branch.getD "main")])) ∧
    (step s Event.cancel).fst.active_dialog = none := by
  obtain ⟨id, hact, hc⟩ :
      ∃ id, s.active_dialog = some id ∧ s.openDialogs.contains id = true := by
    cases hact : s.active_dialog with
    | none => simp [dialogOpen, hact] at hopen
    | some id => exact ⟨id, rfl, by simpa [dialogOpen, hact] using hopen⟩
  have hmem : id ∈ s.openDialogs := by simpa using hc
  have hstep : step s (Event.approve raw)
      = (s, [Output.validationError "Please enter a commit message"]) := by
    simp [step, push_changes, hact, hmem, hempty]
  refine ⟨hstep, by rw [hstep]; exact hopen, by rw [hstep], ?_, ?_⟩
  · intro m hm
    exact ⟨id, hact, by simp [step, push_changes, hact, hmem, hm]⟩
  · simp [step, cancel_dialog, hact, hmem, close_dialog]

/-- Witness for C6: with dialog 0 open, approving with a
whitespace-only message only shows the validation error and changes
nothing. -/
theorem empty_message_validation_witness :
    step ⟨[0], some 0, [], 1, cfgW⟩ (Event.approve "  \n ")
      = (⟨[0], some 0, [], 1, cfgW⟩,
         [Output.validationError "Please enter a commit message"]) :=
  (empty_message_validation ⟨[0], some 0, [], 1, cfgW⟩ "  \n " (by decide)
    (by decide)).1

/-- C8 (amended): operator cancel is effective whenever the confirmation
dialog window exists - in AwaitingConfirmation and equally while a sync
executes, since the source disables only the text widget, never the
Cancel button; it closes the dialog, clears the active-dialog slot
(without touching running workers) and returns the dialog slot to Idle,
after which a subsequent change event is accepted again and produces a
fresh prompt; cancel with no open dialog is a no-op. -/
theorem cancel_discards (s : AppState) (hInv : Inv s)
    (hopen : dialogOpen s = true) :
    (step s Event.cancel).fst.active_dialog = none ∧
    (step s Event.cancel).fst.openDialogs = [] ∧
    (step s Event.cancel).fst.runningSyncs = s.runningSyncs ∧
    (step s Event.cancel).snd = [] ∧
    dialogOpen (step s Event.cancel).fst = false ∧
    (∀ p ts, (step (step s Event.cancel).fst (Event.change p ts)).snd
        = [Output.prompt s.nextId p (default_commit p ts)]) ∧
    (∀ t : AppState, dialogOpen t = false → step t Event.cancel = (t, [])) := by
  obtain ⟨id, hact, hc⟩ :
      ∃ id, s.active_dialog = some id ∧ s.openDialogs.contains id = true := by
    cases hact : s.active_dialog with
    | none => simp [dialogOpen, hact] at hopen
    | some id => exact ⟨id, rfl, by simpa [dialogOpen, hact] using hopen⟩
  have hmem : id ∈ s.openDialogs := by simpa using hc
  have hsing : s.openDialogs = [id] :=
    eq_singleton_of_mem_of_length_le _ _ hmem hInv.1
  have hstep : step s Event.cancel
      = ({ s with active_dialog := none, openDialogs := [] }, []) := by
    simp [step, cancel_dialog, hact, hc, close_dialog, hsing]
  rw [hstep]
  refine ⟨rfl, rfl, rfl, rfl, rfl, ?_, ?_⟩
  · intro p ts
    simp [step, show_commit_dialog, dialogOpen, default_commit]
  · intro t hd
    cases hact' : t.active_dialog with
    | none => simp [step, cancel_dialog, hact']
    | some j =>
      have hnm : j ∉ t.openDialogs := by
        have hnc : t.openDialogs.contains j = false := by
          simpa [dialogOpen, hact'] using hd
        simpa using hnc
      simp [step, cancel_dialog, hact', hnm]

/-- Counterexample to C8's "valid only in AwaitingConfirmation": after
approval, dialog 0's sync worker is running (the Executing state), yet
cancel still succeeds: it discards the dialog and clears the slot while
the worker keeps running. -/
theorem cancel_during_executing_cex :
    (runTrace (initState cfgW)
        [Event.change "d/a.lpz" "t", Event.approve "update"]).fst
      = ⟨[0], some 0, [0], 1, cfgW⟩ ∧
    (step ⟨[0], some 0, [0], 1, cfgW⟩ Event.cancel).fst
      = ⟨[], none, [0], 1, cfgW⟩ := by decide

/-- Witness for C8 (amended): cancelling the open dialog 0 clears the
active-dialog slot. -/
theorem cancel_discards_witness :
    (step ⟨[0], some 0, [], 1, cfgW⟩ Event.cancel).fst.active_dialog = none :=
  (cancel_discards ⟨[0], some 0, [], 1, cfgW⟩ (by decide) (by decide)).1

/-- C9: a debounced change accepted while no dialog is open creates the
confirmation dialog pre-filled with the generated default message
"Update <basename of changed file> - <local timestamp>", and the
operator may approve it with the default text as-is or with any edited
nonempty text, which becomes the commit message of the spawned sync. -/
theorem prompt_prefilled_default (s : AppState) (p ts : String)
    (hidle : dialogOpen s = false) :
    step s (Event.change p ts)
      = ({ s with
            openDialogs := s.nextId :: s.openDialogs,
            active_dialog := some s.nextId,
            nextId := s.nextId + 1 },
         [Output.prompt s.nextId p ("Update " ++ basename p ++ " - " ++ ts)]) ∧
    dialogOpen (step s (Event.change p ts)).fst = true ∧
    (∀ m, strTrim m ≠ "" →
      (step (step s (Event.change p ts)).fst (Event.approve m)).snd
        = [Output.startedSync s.nextId (strTrim m)
            (s.config.default_remote.getD "origin")
            (s.config.default_branch.getD "main")]) := by
  have hstep : step s (Event.change p ts)
      = ({ s with
            openDialogs := s.nextId :: s.openDialogs,
            active_dialog := some s.nextId,
            nextId := s.nextId + 1 },
         [Output.prompt s.nextId p ("Update " ++ basename p ++ " - " ++ ts)]) := by
    simp [step, show_commit_dialog, hidle, default_commit]
  refine ⟨hstep, ?_, ?_⟩
  · rw [hstep]
    simp [dialogOpen]
  · intro m hm
    rw [hstep]
    simp [step, push_changes, hm]

/-- Witness for C9: from the initial state, a change to dir/notes.lpz
prompts with the default message built from the basename and the
timestamp. -/
theorem prompt_prefilled_default_witness :
    step (initState cfgW) (Event.change "dir/notes.lpz" "2025-01-01 10:00")
      = (⟨[0], some 0, [], 1, cfgW⟩,
         [Output.prompt 0 "dir/notes.lpz" "Update notes.lpz - 2025-01-01 10:00"]) :=
  ((prompt_prefilled_default (initState cfgW) "dir/notes.lpz" "2025-01-01 10:00"
    (by decide)).1).trans (by decide)

/-- C10: the tray "Force Push Now" action performs no forced push: with
a configured repository it spawns exactly the worker that runs the same
run_git_commands stage -> commit -> push sequence as an approved
auto-sync, with the fixed commit message "Manual push from tray" and the
configured remote and branch (origin/main when unset), and the push
command issued by that sequence is exactly git push <remote> <branch> -
no force flag is ever passed. -/
theorem force_push_plain (s : AppState)
    (h : truthy s.config.repo_path = true) :
    step s Event.manualForcePush
      = (s, [Output.startedManualPush "Manual push from tray"
          (s.config.default_remote.getD "origin")
          (s.config.default_branch.getD "main")]) ∧
    (∀ cfg exec, run_push_worker cfg exec
        = run_git_worker cfg "Manual push from tray" exec) ∧
    (∀ r b, (pushCmd r b).args = ["git", "push", r, b]) ∧
    "--force" ∉ (pushCmd "origin" "main").args ∧
    "-f" ∉ (pushCmd "origin" "main").args := by
  exact ⟨by simp [step, force_push_step, h], fun cfg exec => rfl,
    fun r b => rfl, by decide, by decide⟩

/-- Witness for C10: from the initial state (no remote/branch keys in
the config), force push spawns the plain-push worker targeting
origin/main. -/
theorem force_push_plain_witness :
    step (initState cfgW) Event.manualForcePush
      = (initState cfgW,
         [Output.startedManualPush "Manual push from tray" "origin" "main"]) :=
  ((force_push_plain (initState cfgW) (by decide)).1).trans (by decide)

/-- C7: start_monitoring validates before touching anything: a blank
watch or repository path (after stripping), a nonexistent watch or
repository directory, or a repository directory without the .git marker
each surface an error and return with the state exactly unchanged - the
config is not saved, the monitoring flag keeps its (not-monitoring)
value and no observer is started. -/
theorem start_monitoring_validation (st : MonitorState) (fs : String → Bool)
    (w r rv bv : String)
    (h : strTrim w = "" ∨ strTrim r = "" ∨ fs (strTrim w) = false ∨
      fs (strTrim r) = false ∨ fs (strTrim r ++ "/.git") = false) :
    (start_monitoring st fs w r rv bv).fst = st ∧
    (start_monitoring st fs w r rv bv).snd.isSome = true := by
  unfold start_monitoring
  split_ifs with h1 h2 h3 h4
  · exact ⟨rfl, rfl⟩
  · exact ⟨rfl, rfl⟩
  · exact ⟨rfl, rfl⟩
  · exact ⟨rfl, rfl⟩
  · exfalso
    rcases h with h' | h' | h' | h' | h' <;> simp_all

/-- Witness for C7: a whitespace-only watch path fails validation and
leaves the state untouched. -/
theorem start_monitoring_validation_witness :
    (start_monitoring ⟨cfgW, false, false⟩ (fun _ => false) " " "/r" "o" "m").fst
      = ⟨cfgW, false, false⟩ :=
  (start_monitoring_validation ⟨cfgW, false, false⟩ (fun _ => false) " " "/r" "o" "m"
    (Or.inl (by decide))).1

end GitAutoSync
